import Mathlib

/-!
# Verification of the per-node consensus engine (Ben-Or style binary consensus)

Shallow embedding of the node implementation (`src/unnamed/part_000`, identical
in logic to `src/src/nodes/node.ts` up to a renaming of the message-kind string
constants: "propose"/"vote" there are "Propose"/"Vote" on the receiving side and
"2P"/"2V" on the sending side).

The node owns:
  * two tallies, `proposals` and `votes`, each a map from round number to the
    list of received values for that round (JS `Map<number, Value[]>`, modelled
    as a total function `Nat → List Value` whose default entry is `[]`, which
    matches the lazy `if (!m.has(k)) m.set(k, []); m.get(k)!.push(x)` idiom);
  * a mutable state record `current_state : { killed, x, decided, k }`.

The HTTP handlers `/start`, `/message`, `/stop`, `/getState` become pure
functions from the node's data (and the request) to the new data together with
the list of messages broadcast by the handler (the `fetch` loop over the N
ports becomes an explicit output list, fire-and-forget in the source).

`Math.random() > 0.5` in the vote branch is modelled by an explicit boolean
input `coin` (true = the comparison held, i.e. pick 0).

In JS, `CN > N / 2` is a comparison against real division; for integer `CN`
this is equivalent to `CN > N / 2` with flooring natural division, which is
what the Lean definition uses.  `N - F` in JS can go negative when `F > N`,
in which case `length >= N - F` is always true; natural subtraction truncates
to `0` there and `length ≥ 0` is likewise always true, so the embedding agrees
for all `N`, `F`.
-/

/-- The TS `Value` type: `0 | 1 | "?"` (the ambiguous marker). -/
inductive Value where
  | v0
  | v1
  | vq
  deriving DecidableEq, Repr

/-- The TS `NodeState` record: `{ killed; x: 0|1|"?"|null; decided: bool|null;
k: number|null }`.  `null` is `none`. -/
structure NodeState where
  killed : Bool
  x : Option Value
  decided : Option Bool
  k : Option Nat
  deriving DecidableEq, Repr

/-- Immutable per-node configuration: the arguments of `node(...)` that the
handlers read (`nodeId`, `N`, `F`, `initialValue`, `isFaulty`). -/
structure NodeConfig where
  nodeId : Nat
  N : Nat
  F : Nat
  initialValue : Value
  isFaulty : Bool
  deriving DecidableEq, Repr

/-- A message payload `{ k, x, type }` as posted to `/message`. -/
structure Msg where
  k : Nat
  x : Value
  type : String
  deriving DecidableEq, Repr

/-- The node's mutable data: the two tallies and the state record. -/
structure NodeData where
  proposals : Nat → List Value
  votes : Nat → List Value
  current_state : NodeState

/-- The initial `NodeData`: empty tallies and
`{ killed: false, x: initialValue, decided: false, k: 0 }`. -/
def initData (cfg : NodeConfig) : NodeData :=
  { proposals := fun _ => []
    votes := fun _ => []
    current_state :=
      { killed := false, x := some cfg.initialValue, decided := some false, k := some 0 } }

/-- The `for (let i = 0; i < N; i++) fetch(...)` broadcast loop: the same
payload sent to each of the `N` node indices. -/
def broadcast (N : Nat) (m : Msg) : List (Nat × Msg) :=
  (List.range N).map (fun i => (i, m))

/-- Append to a tally entry, creating it lazily:
`if (!m.has(k)) m.set(k, []); m.get(k)!.push(x)`. -/
def tallyPush (t : Nat → List Value) (k : Nat) (x : Value) : Nat → List Value :=
  fun j => if j = k then t k ++ [x] else t j

/-- The `/start` handler (after the readiness wait, which has no effect on the
node's data).  Non-faulty: set `k = 1`, `x = initialValue`, `decided = false`
and broadcast `{ k: 1, x: initialValue, type: "propose" }` to all `N` nodes.
Faulty: set `decided = null`, `x = null`, `k = null` and send nothing. -/
def startHandler (cfg : NodeConfig) (d : NodeData) : NodeData × List (Nat × Msg) :=
  if !cfg.isFaulty then
    ({ d with current_state :=
        { d.current_state with k := some 1, x := some cfg.initialValue, decided := some false } },
     broadcast cfg.N { k := 1, x := cfg.initialValue, type := "propose" })
  else
    ({ d with current_state :=
        { d.current_state with decided := none, x := none, k := none } },
     [])

/-- The `/message` handler.  `coin` models `Math.random() > 0.5` in the
round-advance branch.  Guarded by `!current_state.killed && !isFaulty`; the
`"propose"` branch appends to the proposal tally and, at quorum, broadcasts a
vote; the `"vote"` branch appends to the vote tally and, at quorum, decides or
advances the round; any other `type` falls through with no effect. -/
def messageHandler (cfg : NodeConfig) (coin : Bool) (d : NodeData)
    (k : Nat) (x : Value) (type : String) : NodeData × List (Nat × Msg) :=
  if !d.current_state.killed && !cfg.isFaulty then
    if type = "propose" then
      let proposals := tallyPush d.proposals k x
      let proposal := proposals k
      if proposal.length ≥ cfg.N - cfg.F then
        let CN := (proposal.filter (fun x => x = Value.v0)).length
        let CY := (proposal.filter (fun x => x = Value.v1)).length
        let x := if CN > cfg.N / 2 then Value.v0 else if CY > cfg.N / 2 then Value.v1 else Value.vq
        ({ d with proposals := proposals },
         broadcast cfg.N { k := k, x := x, type := "vote" })
      else
        ({ d with proposals := proposals }, [])
    else if type = "vote" then
      let votes := tallyPush d.votes k x
      let vote := votes k
      if vote.length ≥ cfg.N - cfg.F then
        let CN := (vote.filter (fun x => x = Value.v0)).length
        let CY := (vote.filter (fun x => x = Value.v1)).length
        if CN ≥ cfg.F + 1 then
          ({ d with
              votes := votes
              current_state := { d.current_state with x := some Value.v0, decided := some true } },
           [])
        else if CY ≥ cfg.F + 1 then
          ({ d with
              votes := votes
              current_state := { d.current_state with x := some Value.v1, decided := some true } },
           [])
        else
          let newX : Value :=
            if CN + CY > 0 ∧ CN > CY then Value.v0
            else if CN + CY > 0 ∧ CN < CY then Value.v1
            else if coin then Value.v0 else Value.v1
          ({ d with
              votes := votes
              current_state := { d.current_state with x := some newX, k := some (k + 1) } },
           broadcast cfg.N { k := k + 1, x := newX, type := "propose" })
      else
        ({ d with votes := votes }, [])
    else
      (d, [])
  else
    (d, [])

/-- The `/stop` handler: `killed = true`, `x = null`, `decided = null`,
`k = 0`; tallies untouched. -/
def stopHandler (d : NodeData) : NodeData :=
  { d with current_state := { killed := true, x := none, decided := none, k := some 0 } }

/-- The `/getState` handler: faulty nodes report
`{ killed, x: null, decided: null, k: null }`; others report the state record. -/
def getState (cfg : NodeConfig) (d : NodeData) : NodeState :=
  if cfg.isFaulty then
    { killed := d.current_state.killed, x := none, decided := none, k := none }
  else
    d.current_state

/-! ## Example configurations and runs used by witnesses and counterexamples -/

/-- A non-faulty node in a network with `N = 3`, `F = 1`
(quorum threshold `N - F = 2`, decision threshold `F + 1 = 2`). -/
def cfgEx : NodeConfig :=
  { nodeId := 0, N := 3, F := 1, initialValue := Value.v0, isFaulty := false }

/-- A faulty node in the same `N = 3`, `F = 1` network. -/
def cfgFaulty : NodeConfig :=
  { nodeId := 1, N := 3, F := 1, initialValue := Value.v1, isFaulty := true }

/-- The freshly constructed data of `cfgEx`. -/
def dEx : NodeData := initData cfgEx

/-- `cfgEx` after `/start`. -/
def runStart : NodeData := (startHandler cfgEx dEx).1

/-- `runStart` after one `propose(k=1, x=0)` message (proposal tally `[0]`,
below the quorum threshold `2`). -/
def runP1 : NodeData := (messageHandler cfgEx true runStart 1 Value.v0 "propose").1

/-- `runStart` after one `vote(k=1, x=0)` message (round-1 vote tally `[0]`,
below the quorum threshold `2`). -/
def runV1 : NodeData := (messageHandler cfgEx true runStart 1 Value.v0 "vote").1

/-- `runV1` after a second `vote(k=1, x=0)`: the round-1 tally `[0,0]` reaches
quorum with `CN = 2 ≥ F+1`, so the node decides `x = 0`, `decided = true`. -/
def runD2 : NodeData := (messageHandler cfgEx true runV1 1 Value.v0 "vote").1

/-- `runD2` after a `vote(k=2, x=1)` (round-2 tally `[1]`, below quorum). -/
def runD3 : NodeData := (messageHandler cfgEx true runD2 2 Value.v1 "vote").1

/-- `runD3` after a second `vote(k=2, x=1)`: the round-2 tally `[1,1]` reaches
quorum with `CY = 2 ≥ F+1` and the handler runs again despite
`decided = true`. -/
def runD4 : NodeData := (messageHandler cfgEx true runD3 2 Value.v1 "vote").1

/-- `runV1` after a `vote(k=1, x=1)`: round-1 tally `[0,1]` reaches quorum,
tied, so the node advances to `k = 2`. -/
def runE2 : NodeData := (messageHandler cfgEx true runV1 1 Value.v1 "vote").1

/-- `runE2` after a `vote(k=2, x=0)` (round-2 tally `[0]`, below quorum). -/
def runE3 : NodeData := (messageHandler cfgEx true runE2 2 Value.v0 "vote").1

/-- `runE3` after a `vote(k=2, x=1)`: round-2 tally `[0,1]` reaches quorum,
tied, so the node advances to `k = 3`. -/
def runE4 : NodeData := (messageHandler cfgEx true runE3 2 Value.v1 "vote").1

/-- `runE4` after a stale `vote(k=1, x=?)`: the round-1 tally `[0,1,?]` is
at-or-above quorum again, tied, and the handler sets `k = 1 + 1 = 2`. -/
def runE5 : NodeData := (messageHandler cfgEx true runE4 1 Value.vq "vote").1

/-! ## Theorems -/

/-- **C5.** `start()` on a non-faulty participant sets `k = 1`,
`x = initialValue`, `decided = false` and sends exactly `N` propose messages
`{k: 1, x: initialValue}`, one to each participant index `0 .. N-1` — in
particular one to itself when its own index is in range; `start()` on a
faulty participant sets `x = null`, `decided = null`, `k = null` and sends
nothing. -/
theorem start_behavior (cfg : NodeConfig) (d : NodeData) :
    (cfg.isFaulty = false →
      (startHandler cfg d).1.current_state =
        { killed := d.current_state.killed, x := some cfg.initialValue,
          decided := some false, k := some 1 } ∧
      (startHandler cfg d).2 =
        (List.range cfg.N).map
          (fun i => (i, { k := 1, x := cfg.initialValue, type := "propose" })) ∧
      (startHandler cfg d).2.length = cfg.N ∧
      (cfg.nodeId < cfg.N →
        (cfg.nodeId, ({ k := 1, x := cfg.initialValue, type := "propose" } : Msg))
          ∈ (startHandler cfg d).2)) ∧
    (cfg.isFaulty = true →
      (startHandler cfg d).1.current_state =
        { killed := d.current_state.killed, x := none, decided := none, k := none } ∧
      (startHandler cfg d).2 = []) := by
  constructor
  · intro hf
    have hout : (startHandler cfg d).2 =
        (List.range cfg.N).map
          (fun i => (i, ({ k := 1, x := cfg.initialValue, type := "propose" } : Msg))) := by
      simp [startHandler, broadcast, hf]
    refine ⟨by simp [startHandler, hf], hout, by rw [hout]; simp, ?_⟩
    intro hid
    rw [hout]
    exact List.mem_map.mpr ⟨cfg.nodeId, List.mem_range.mpr hid, rfl⟩
  · intro hf
    exact ⟨by simp [startHandler, hf], by simp [startHandler, hf]⟩

/-- Witness for C5: at the concrete non-faulty `cfgEx`, `start()` yields the
state `{killed: false, x: 0, decided: false, k: 1}`. -/
theorem start_behavior_witness :
    cfgEx.isFaulty = false ∧
    (startHandler cfgEx dEx).1.current_state =
      { killed := dEx.current_state.killed, x := some cfgEx.initialValue,
        decided := some false, k := some 1 } :=
  ⟨rfl, ((start_behavior cfgEx dEx).1 rfl).1⟩

/-- **C6.** For a participant constructed with `isFaulty = true`, `getState()`
returns `{killed: current killed flag, x: null, decided: null, k: null}` in
every state whatsoever, hence in every reachable one. -/
theorem faulty_getState (cfg : NodeConfig) (d : NodeData) (hf : cfg.isFaulty = true) :
    getState cfg d =
      { killed := d.current_state.killed, x := none, decided := none, k := none } := by
  simp [getState, hf]

/-- Witness for C6: the faulty `cfgFaulty` at its initial data reports the
null triple with its current killed flag. -/
theorem faulty_getState_witness :
    cfgFaulty.isFaulty = true ∧
    getState cfgFaulty (initData cfgFaulty) =
      { killed := (initData cfgFaulty).current_state.killed,
        x := none, decided := none, k := none } :=
  ⟨rfl, faulty_getState cfgFaulty (initData cfgFaulty) rfl⟩

/-- **C7.** `stop()` sets `killed = true`, `x = null`, `decided = null`,
`k = 0` and leaves the tallies alone; and on any data whose state has
`killed = true` — as holds after `stop()` and is never unset by the message
handler — `onMessage` is a complete no-op: data unchanged, nothing
broadcast. -/
theorem stop_then_message_noop (d : NodeData) :
    ((stopHandler d).current_state =
        { killed := true, x := none, decided := none, k := some 0 } ∧
      (stopHandler d).proposals = d.proposals ∧
      (stopHandler d).votes = d.votes) ∧
    (∀ (cfg : NodeConfig) (coin : Bool) (d' : NodeData) (k : Nat) (x : Value) (t : String),
      d'.current_state.killed = true →
      messageHandler cfg coin d' k x t = (d', [])) := by
  refine ⟨⟨rfl, rfl, rfl⟩, ?_⟩
  intro cfg coin d' k x t hk
  simp [messageHandler, hk]

/-- Witness for C7: a stopped `cfgEx` node swallows a round-1 vote without
any change or broadcast. -/
theorem stop_then_message_noop_witness :
    (stopHandler dEx).current_state.killed = true ∧
    messageHandler cfgEx true (stopHandler dEx) 1 Value.v0 "vote" = (stopHandler dEx, []) :=
  ⟨rfl, (stop_then_message_noop dEx).2 cfgEx true (stopHandler dEx) 1 Value.v0 "vote" rfl⟩

/-- **C8.** On a non-faulty, non-killed participant, a message whose kind is
neither `"propose"` nor `"vote"` is silently ignored: no tally changes, no
state change, no broadcast. -/
theorem unknown_kind_noop (cfg : NodeConfig) (coin : Bool) (d : NodeData)
    (k : Nat) (x : Value) (t : String)
    (hk : d.current_state.killed = false) (hf : cfg.isFaulty = false)
    (ht1 : t ≠ "propose") (ht2 : t ≠ "vote") :
    messageHandler cfg coin d k x t = (d, []) := by
  simp [messageHandler, hk, hf, ht1, ht2]

/-- Witness for C8: `cfgEx` ignores a message of kind `"status"`. -/
theorem unknown_kind_noop_witness :
    dEx.current_state.killed = false ∧ cfgEx.isFaulty = false ∧
    ("status" : String) ≠ "propose" ∧ ("status" : String) ≠ "vote" ∧
    messageHandler cfgEx true dEx 1 Value.v0 "status" = (dEx, []) :=
  ⟨rfl, rfl, by decide, by decide,
    unknown_kind_noop cfgEx true dEx 1 Value.v0 "status" rfl rfl (by decide) (by decide)⟩

/-- Every entry of a tally is `0`, `1` or `?`, so the three filter counts
partition the tally: ambiguous entries are exactly the ones counted in
neither `CN` nor `CY`. -/
theorem value_filter_partition (l : List Value) :
    (l.filter (fun v => v = Value.v0)).length + (l.filter (fun v => v = Value.v1)).length
      + (l.filter (fun v => v = Value.vq)).length = l.length := by
  induction l with
  | nil => rfl
  | cons a t ih => cases a <;> simp [List.filter_cons] <;> omega

/-- **C1.** On a non-faulty, non-killed participant, when a `vote(k, x)`
message brings the round-`k` vote tally to size `≥ N - F`, the handler
(with `CN`, `CY` the 0- and 1-counts of the tally after the append):
decides `x = 0, decided = true` if `CN ≥ F+1` (checked first); else decides
`x = 1, decided = true` if `CY ≥ F+1`; otherwise sets `x = 0` if
`CN > 0 ∧ CN > CY`, `x = 1` if `CY > 0 ∧ CY > CN`, and the coin's value when
tied (which covers both-zero), and advances the round; and the `?` entries
count toward neither `CN` nor `CY` (last conjunct). -/
theorem vote_quorum_decision (cfg : NodeConfig) (coin : Bool) (d : NodeData) (k : Nat) (x : Value)
    (hk : d.current_state.killed = false) (hf : cfg.isFaulty = false)
    (hq : (d.votes k ++ [x]).length ≥ cfg.N - cfg.F) :
    (((d.votes k ++ [x]).filter (fun v => v = Value.v0)).length ≥ cfg.F + 1 →
      (messageHandler cfg coin d k x "vote").1.current_state.x = some Value.v0 ∧
      (messageHandler cfg coin d k x "vote").1.current_state.decided = some true) ∧
    (((d.votes k ++ [x]).filter (fun v => v = Value.v0)).length < cfg.F + 1 →
     ((d.votes k ++ [x]).filter (fun v => v = Value.v1)).length ≥ cfg.F + 1 →
      (messageHandler cfg coin d k x "vote").1.current_state.x = some Value.v1 ∧
      (messageHandler cfg coin d k x "vote").1.current_state.decided = some true) ∧
    (((d.votes k ++ [x]).filter (fun v => v = Value.v0)).length < cfg.F + 1 →
     ((d.votes k ++ [x]).filter (fun v => v = Value.v1)).length < cfg.F + 1 →
      (messageHandler cfg coin d k x "vote").1.current_state.k = some (k + 1) ∧
      (((d.votes k ++ [x]).filter (fun v => v = Value.v0)).length > 0 ∧
       ((d.votes k ++ [x]).filter (fun v => v = Value.v0)).length >
         ((d.votes k ++ [x]).filter (fun v => v = Value.v1)).length →
        (messageHandler cfg coin d k x "vote").1.current_state.x = some Value.v0) ∧
      (((d.votes k ++ [x]).filter (fun v => v = Value.v1)).length > 0 ∧
       ((d.votes k ++ [x]).filter (fun v => v = Value.v1)).length >
         ((d.votes k ++ [x]).filter (fun v => v = Value.v0)).length →
        (messageHandler cfg coin d k x "vote").1.current_state.x = some Value.v1) ∧
      (((d.votes k ++ [x]).filter (fun v => v = Value.v0)).length =
         ((d.votes k ++ [x]).filter (fun v => v = Value.v1)).length →
        (messageHandler cfg coin d k x "vote").1.current_state.x =
          some (if coin then Value.v0 else Value.v1))) ∧
    ((d.votes k ++ [x]).filter (fun v => v = Value.v0)).length +
      ((d.votes k ++ [x]).filter (fun v => v = Value.v1)).length +
      ((d.votes k ++ [x]).filter (fun v => v = Value.vq)).length =
      (d.votes k ++ [x]).length := by
  have hpush : tallyPush d.votes k x k = d.votes k ++ [x] := by simp [tallyPush]
  simp only [messageHandler, hk, hf, Bool.not_false, Bool.and_self, if_true]
  rw [if_neg (by decide : ¬("vote" : String) = "propose")]
  simp only [hpush]
  rw [if_pos hq]
  refine ⟨?_, ?_, ?_, value_filter_partition _⟩
  · intro h0
    rw [if_pos h0]
    exact ⟨rfl, rfl⟩
  · intro h0 h1
    rw [if_neg (by omega), if_pos h1]
    exact ⟨rfl, rfl⟩
  · intro h0 h1
    rw [if_neg (by omega), if_neg (by omega)]
    refine ⟨rfl, ?_, ?_, ?_⟩
    · intro h2
      rw [if_pos (by omega : _ ∧ _)]
    · intro h2
      rw [if_neg (by omega), if_pos (by omega : _ ∧ _)]
    · intro h2
      rw [if_neg (by omega), if_neg (by omega)]

/-- Witness for C1: `runV1` (round-1 vote tally `[0]`) receives `vote(1, 0)`;
the tally `[0,0]` is at quorum with `CN = 2 ≥ F+1 = 2`, and the node decides
`x = 0`, `decided = true`. -/
theorem vote_quorum_decision_witness :
    runV1.current_state.killed = false ∧ cfgEx.isFaulty = false ∧
    (runV1.votes 1 ++ [Value.v0]).length ≥ cfgEx.N - cfgEx.F ∧
    ((runV1.votes 1 ++ [Value.v0]).filter (fun v => v = Value.v0)).length ≥ cfgEx.F + 1 ∧
    (messageHandler cfgEx true runV1 1 Value.v0 "vote").1.current_state.x = some Value.v0 ∧
    (messageHandler cfgEx true runV1 1 Value.v0 "vote").1.current_state.decided = some true :=
  ⟨by decide, rfl, by decide, by decide,
    (vote_quorum_decision cfgEx true runV1 1 Value.v0 (by decide) rfl (by decide)).1 (by decide)⟩

/-- **C3.** On a non-faulty, non-killed participant, a `propose(k, x)`
message triggers a vote broadcast if and only if the round-`k` proposal
tally, after the append, has size `≥ N - F`: below threshold nothing is
sent, and at-or-above threshold the handler sends to all `N` participants a
`vote(k, x')` with `x' = 0` if `CN > N/2`, else `1` if `CY > N/2`, else
`?`. -/
theorem propose_quorum_broadcast (cfg : NodeConfig) (coin : Bool) (d : NodeData)
    (k : Nat) (x : Value)
    (hk : d.current_state.killed = false) (hf : cfg.isFaulty = false) :
    ((d.proposals k ++ [x]).length < cfg.N - cfg.F →
      (messageHandler cfg coin d k x "propose").2 = []) ∧
    ((d.proposals k ++ [x]).length ≥ cfg.N - cfg.F →
      (messageHandler cfg coin d k x "propose").2 =
        broadcast cfg.N
          { k := k,
            x := if ((d.proposals k ++ [x]).filter (fun v => v = Value.v0)).length > cfg.N / 2
                 then Value.v0
                 else if ((d.proposals k ++ [x]).filter (fun v => v = Value.v1)).length > cfg.N / 2
                 then Value.v1 else Value.vq,
            type := "vote" } ∧
      (messageHandler cfg coin d k x "propose").2.length = cfg.N) ∧
    (0 < cfg.N →
      ((messageHandler cfg coin d k x "propose").2 ≠ [] ↔
        (d.proposals k ++ [x]).length ≥ cfg.N - cfg.F)) := by
  have hpush : tallyPush d.proposals k x k = d.proposals k ++ [x] := by simp [tallyPush]
  simp only [messageHandler, hk, hf, Bool.not_false, Bool.and_self, if_true]
  simp only [hpush]
  refine ⟨?_, ?_, ?_⟩
  · intro h
    rw [if_neg (by omega)]
  · intro h
    rw [if_pos h]
    exact ⟨rfl, by simp [broadcast]⟩
  · intro hN
    by_cases h : (d.proposals k ++ [x]).length ≥ cfg.N - cfg.F
    · rw [if_pos h]
      refine ⟨fun _ => h, fun _ => ?_⟩
      simp only [broadcast, ne_eq, List.map_eq_nil_iff, List.range_eq_nil]
      omega
    · rw [if_neg h]
      exact ⟨fun hne => absurd rfl hne, fun hq2 => absurd hq2 h⟩

/-- Witness for C3: `runP1` (round-1 proposal tally `[0]`) receives
`propose(1, 0)`; the tally `[0,0]` reaches the threshold `2` and the node
broadcasts to all `N = 3` participants. -/
theorem propose_quorum_broadcast_witness :
    runP1.current_state.killed = false ∧ cfgEx.isFaulty = false ∧
    (runP1.proposals 1 ++ [Value.v0]).length ≥ cfgEx.N - cfgEx.F ∧
    (messageHandler cfgEx true runP1 1 Value.v0 "propose").2.length = cfgEx.N :=
  ⟨by decide, rfl, by decide,
    ((propose_quorum_broadcast cfgEx true runP1 1 Value.v0 (by decide) rfl).2.1 (by decide)).2⟩

/-- **C9.** A `propose(k, x)` message on a non-faulty, non-killed participant
never modifies the state record: `current_state` (hence `killed`, `x`,
`decided`, `k`) is identical before and after, the vote tally is untouched,
and only the round-`k` proposal tally grows by the appended value. -/
theorem propose_frame (cfg : NodeConfig) (coin : Bool) (d : NodeData) (k : Nat) (x : Value)
    (hk : d.current_state.killed = false) (hf : cfg.isFaulty = false) :
    (messageHandler cfg coin d k x "propose").1.current_state = d.current_state ∧
    (messageHandler cfg coin d k x "propose").1.votes = d.votes ∧
    (messageHandler cfg coin d k x "propose").1.proposals k = d.proposals k ++ [x] ∧
    (∀ j, j ≠ k → (messageHandler cfg coin d k x "propose").1.proposals j = d.proposals j) := by
  simp only [messageHandler, hk, hf, Bool.not_false, Bool.and_self, if_true]
  split_ifs <;>
    refine ⟨rfl, rfl, by simp [tallyPush], fun j hj => by simp [tallyPush, hj]⟩

/-- Witness for C9: a `propose(1, 0)` on the freshly started `cfgEx` node
leaves its state record unchanged. -/
theorem propose_frame_witness :
    runStart.current_state.killed = false ∧ cfgEx.isFaulty = false ∧
    (messageHandler cfgEx true runStart 1 Value.v0 "propose").1.current_state =
      runStart.current_state :=
  ⟨by decide, rfl, (propose_frame cfgEx true runStart 1 Value.v0 (by decide) rfl).1⟩

/-- **C10.** When a vote quorum leads to a decision (`CN ≥ F+1` or
`CY ≥ F+1`), the handler writes only `x` and `decided`: the round number `k`
and the `killed` flag are unchanged and nothing is broadcast. -/
theorem decide_frame (cfg : NodeConfig) (coin : Bool) (d : NodeData) (k : Nat) (x : Value)
    (hk : d.current_state.killed = false) (hf : cfg.isFaulty = false)
    (hq : (d.votes k ++ [x]).length ≥ cfg.N - cfg.F)
    (hdec : ((d.votes k ++ [x]).filter (fun v => v = Value.v0)).length ≥ cfg.F + 1 ∨
            ((d.votes k ++ [x]).filter (fun v => v = Value.v1)).length ≥ cfg.F + 1) :
    (messageHandler cfg coin d k x "vote").2 = [] ∧
    (messageHandler cfg coin d k x "vote").1.current_state.k = d.current_state.k ∧
    (messageHandler cfg coin d k x "vote").1.current_state.killed = d.current_state.killed ∧
    (messageHandler cfg coin d k x "vote").1.current_state.decided = some true := by
  have hpush : tallyPush d.votes k x k = d.votes k ++ [x] := by simp [tallyPush]
  simp only [messageHandler, hk, hf, Bool.not_false, Bool.and_self, if_true]
  rw [if_neg (by decide : ¬("vote" : String) = "propose")]
  simp only [hpush]
  split_ifs <;> first
    | exact ⟨rfl, rfl, rfl, rfl⟩
    | omega

/-- Witness for C10: the deciding step from `runV1` (tally `[0,0]`,
`CN = 2 ≥ F+1`) broadcasts nothing and keeps `k`. -/
theorem decide_frame_witness :
    runV1.current_state.killed = false ∧ cfgEx.isFaulty = false ∧
    (runV1.votes 1 ++ [Value.v0]).length ≥ cfgEx.N - cfgEx.F ∧
    (messageHandler cfgEx true runV1 1 Value.v0 "vote").2 = [] ∧
    (messageHandler cfgEx true runV1 1 Value.v0 "vote").1.current_state.k =
      runV1.current_state.k :=
  ⟨by decide, rfl, by decide,
    (decide_frame cfgEx true runV1 1 Value.v0 (by decide) rfl (by decide)
      (Or.inl (by decide))).1,
    (decide_frame cfgEx true runV1 1 Value.v0 (by decide) rfl (by decide)
      (Or.inl (by decide))).2.1⟩

/-- **C4, counterexample.** The round number is not monotone: in the run
`runE2 … runE5` of a non-faulty, never-killed, never-decided node, `k`
reaches `3` and a subsequent stale round-1 vote message sets it back to
`2` (the handler writes `msg.k + 1`, not `state.k + 1`). -/
theorem round_counter_decreases :
    runE4.current_state.k = some 3 ∧
    runE4.current_state.killed = false ∧
    runE4.current_state.decided = some false ∧
    runE5.current_state.k = some 2 := by
  refine ⟨?_, ?_, ?_, ?_⟩ <;> decide

/-- **C4, amended.** On start (non-faulty) `k` is set to `1`; each
`onMessage` call either leaves `k` unchanged or sets it to one more than the
incoming message's round number — which can decrease `k` or make it jump by
more than `1` when stale or future-round messages arrive. -/
theorem round_counter_step (cfg : NodeConfig) (coin : Bool) (d : NodeData) (k : Nat)
    (x : Value) (t : String) (hf : cfg.isFaulty = false) :
    (startHandler cfg d).1.current_state.k = some 1 ∧
    ((messageHandler cfg coin d k x t).1.current_state.k = d.current_state.k ∨
     (messageHandler cfg coin d k x t).1.current_state.k = some (k + 1)) := by
  refine ⟨by simp [startHandler, hf], ?_⟩
  simp only [messageHandler]
  split_ifs <;> simp

/-- Witness for the amended C4: at the concrete `cfgEx`, start sets `k = 1`
and a vote message either keeps `k` or sets it to `msg.k + 1`. -/
theorem round_counter_step_witness :
    cfgEx.isFaulty = false ∧
    ((startHandler cfgEx dEx).1.current_state.k = some 1 ∧
     ((messageHandler cfgEx true dEx 1 Value.v0 "vote").1.current_state.k =
        dEx.current_state.k ∨
      (messageHandler cfgEx true dEx 1 Value.v0 "vote").1.current_state.k = some (1 + 1))) :=
  ⟨rfl, round_counter_step cfgEx true dEx 1 Value.v0 "vote" rfl⟩

/-- **C2.** The claim fails on the code: the message handler has no
`decided` guard, so a node that has decided (`runD2`: `x = 0`,
`decided = true`, not killed, not faulty) and then receives two round-2
votes for `1` (`runD3`, `runD4`) has its `x` overwritten to `1` while
`decided` stays `true`. -/
theorem decided_not_terminal :
    runD2.current_state.decided = some true ∧
    runD2.current_state.x = some Value.v0 ∧
    runD2.current_state.killed = false ∧
    runD4.current_state.decided = some true ∧
    runD4.current_state.x = some Value.v1 := by
  refine ⟨?_, ?_, ?_, ?_, ?_⟩ <;> decide
